import Mathlib

/-!
Verification of the kitchen cookoff core of the chefs-kitchen repository
(`chefs_kitchen/models/kitchen_model.py` and `chefs_kitchen/models/chef_model.py`),
shallowly embedded in Lean 4.

Conventions of the embedding:
* Python ints are `Int`; the floats appearing in the cookoff walk are `ℚ`
  (the walk only adds, divides and compares).
* The sqlite-backed chef table is a `List Chef`; `SELECT ... WHERE id = ?`
  is `List.find?` on the id, `UPDATE` is a `List.map`.
* Python dicts (`_chefs_cache`, `_ttl`) are association lists `List (Int × _)`
  updated in place (matching dict insertion-order semantics for distinct keys).
* A raised exception is `Except.error (message, state-at-raise)`: the model
  object survives the exception, so errors carry the `KitchenModel` state as
  it stands when the exception propagates.
* Source slips that have a well-defined observable behaviour are kept
  faithfully (see the comments on `enter_kitchen`, `ttl_get_chef_default`,
  `cookoff`); each is flagged at its definition.
-/

namespace ChefsKitchen

/-- A row of the `chefs` table, as read by `get_chef_by_id`
(chef_model.py lines 12-21 and 50-64). -/
structure Chef where
  id : Int
  name : String
  specialty : String
  years_experience : Int
  signature_dishes : Int
  age : Int
  wins : Int
  cookoffs : Int
  deriving DecidableEq

/-- Embeds `get_chef_by_id` (chef_model.py lines 50-64): the first row whose id
matches, `none` when the ValueError "Chef with ID ... not found." is raised. -/
def get_chef_by_id (store : List Chef) (chef_id : Int) : Option Chef :=
  store.find? (fun c => c.id = chef_id)

/-- Embeds `update_chef_stats` (chef_model.py lines 97-116): rejects results other
than win and loss, fails NotFound when no row has the id, otherwise increments
`cookoffs` always and `wins` only for a win. -/
def update_chef_stats (store : List Chef) (chef_id : Int) (result : String) :
    Except String (List Chef) :=
  if result ≠ ("win") ∧ result ≠ ("loss") then
    .error ("Invalid result: " ++ result ++ ". Expected win or loss.")
  else if (get_chef_by_id store chef_id).isNone then
    .error ("Chef with ID " ++ toString chef_id ++ " not found.")
  else
    .ok (store.map (fun c =>
      if c.id = chef_id then
        if result = ("win") then
          { c with cookoffs := c.cookoffs + 1, wins := c.wins + 1 }
        else
          { c with cookoffs := c.cookoffs + 1 }
      else c))

/-- State of `KitchenModel` (kitchen_model.py lines 30-33).  Note: lines 31-32 of
the source initialize `_chefs_cache` and `_ttl` to `[]` (lists) although they are
annotated and subsequently used as dicts; the embedding uses the annotated
id-keyed mapping type, which both start empty either way. -/
structure KitchenModel where
  kitchen : List Int
  chefs_cache : List (Int × Chef)
  ttl : List (Int × ℚ)
  ttl_seconds : Int
  deriving DecidableEq

/-- The fixed cuisine enumeration (kitchen_model.py lines 34-41). -/
def cuisines : List String :=
  [("Italian"), ("Chinese"), ("Greek"), ("Japanese"),
   ("Korean"), ("Indian"), ("Mexican"), ("Cajun")]

/-- Embeds line 33 of kitchen_model.py: `int(os.getenv("TTL", 60))`.  The
environment is modelled with already-parsed integer values, since what matters
to the configuration contract is which variable is consulted: the source reads
the variable named TTL (not TTL_SECONDS), defaulting to 60. -/
def initTtlSeconds (env : List (String × Int)) : Int :=
  (((env.find? (fun p => p.1 = ("TTL"))).map Prod.snd)).getD 60

/-- Embeds `KitchenModel.__init__` (kitchen_model.py lines 30-33). -/
def kitchenModelInit (env : List (String × Int)) : KitchenModel :=
  { kitchen := [], chefs_cache := [], ttl := [], ttl_seconds := initTtlSeconds env }

/-- Embeds `calculate_chef_skill` (kitchen_model.py lines 148-171).  The leading
`assert cuisine in self.cuisines` is modelled by the `none` branch. -/
def calculate_chef_skill (chef : Chef) (cuisine : String) : Option Int :=
  if cuisine ∈ cuisines then
    let specialty_bonus : Int := if cuisine = chef.specialty then 5 else 0
    let age_modifier : Int :=
      if (chef.age < 25 ∧ chef.years_experience < 4) ∨ chef.age > 55 then -5 else 0
    some (chef.years_experience * 4 + chef.signature_dishes * 2 +
          specialty_bonus + age_modifier)
  else
    none

/-- Dict read, `d.get(k)` / `k in d`. -/
def dictGet {α : Type} (m : List (Int × α)) (k : Int) : Option α :=
  (m.find? (fun p => p.1 = k)).map Prod.snd

/-- Dict write `d[k] = v`: overwrites in place, else appends, matching Python
dict insertion-order semantics for distinct keys. -/
def dictSet {α : Type} (m : List (Int × α)) (k : Int) (v : α) : List (Int × α) :=
  if (m.find? (fun p => p.1 = k)).isSome then
    m.map (fun p => if p.1 = k then (k, v) else p)
  else
    m ++ [(k, v)]

/-- Models the lookup `self._ttl.get(chef, 0)` at kitchen_model.py line 136.
The map `_ttl` is keyed by integer chef ids, but the key used for the lookup is
the loop variable `chef` — the snapshot fetched on an earlier iteration, not the
current `chef_id` — so the lookup never finds an entry and always yields the
Python default 0.  (On the very first iteration `chef` is not even bound yet.)
The arguments record what the source consults. -/
def ttl_get_chef_default (_ttl : List (Int × ℚ)) (_chef : Option Chef) : ℚ := 0

/-- The refresh arm of the cache loop (kitchen_model.py lines 137-140): fetch
the chef from the store, overwrite the cache entry, and set its expiry to
`now + ttl_seconds`. -/
def cache_refresh (store : List Chef) (now : ℚ) (m : KitchenModel) (chef_id : Int) :
    Except String (Chef × KitchenModel) :=
  match get_chef_by_id store chef_id with
  | none => .error ("Chef with ID " ++ toString chef_id ++ " not found.")
  | some chef =>
      .ok (chef,
        { m with
          chefs_cache := dictSet m.chefs_cache chef_id chef,
          ttl := dictSet m.ttl chef_id (now + (m.ttl_seconds : ℚ)) })

/-- The per-id loop of `get_chefs` (kitchen_model.py lines 135-143).  The source
condition is `chef_id not in self._chefs_cache.keys or self._ttl.get(chef, 0) <= now`
(line 136; `.keys` is written without call parentheses — the evident membership
test is modelled); the short-circuit `or` is unfolded into the two match arms
below, and the second disjunct is the wrong-key lookup `ttl_get_chef_default`.
`prev` threads the loop variable `chef` from the previous iteration. -/
def get_chefs_loop (store : List Chef) (now : ℚ) :
    List Int → KitchenModel → Option Chef → List Chef →
    Except (String × KitchenModel) (List Chef × KitchenModel)
  | [], m, _, acc => .ok (acc.reverse, m)
  | chef_id :: rest, m, prev, acc =>
    match dictGet m.chefs_cache chef_id with
    | none =>
        match cache_refresh store now m chef_id with
        | .error e => .error (e, m)
        | .ok (chef, m2) => get_chefs_loop store now rest m2 (some chef) (chef :: acc)
    | some cached =>
        if ttl_get_chef_default m.ttl prev ≤ now then
          match cache_refresh store now m chef_id with
          | .error e => .error (e, m)
          | .ok (chef, m2) => get_chefs_loop store now rest m2 (some chef) (chef :: acc)
        else
          get_chefs_loop store now rest m (some cached) (cached :: acc)

/-- Embeds `get_chefs` (kitchen_model.py lines 120-146): resolves the roster ids
in order through the TTL cache, returning the snapshots in roster order together
with the updated model state.  Cache writes made before a NotFound is raised
persist in the error state. -/
def get_chefs (m : KitchenModel) (store : List Chef) (now : ℚ) :
    Except (String × KitchenModel) (List Chef × KitchenModel) :=
  get_chefs_loop store now m.kitchen m none []

/-- The cumulative-probability walk of `cookoff` (kitchen_model.py lines 72-78):
`progress` starts at the accumulator argument, each step adds `skill/total`, and
the first participant with `r < progress` is returned.  `none` is the loop
falling through with `winner` never assigned. -/
def select_winner_go (total : Int) (r : ℚ) :
    List (Chef × Int) → ℚ → Option Chef
  | [], _ => none
  | (chef, skill) :: rest, progress =>
    let progress2 := progress + (skill : ℚ) / (total : ℚ)
    if r < progress2 then some chef else select_winner_go total r rest progress2

/-- The walk of kitchen_model.py lines 72-78 started with `progress = 0`. -/
def select_winner (skills : List (Chef × Int)) (total : Int) (r : ℚ) : Option Chef :=
  select_winner_go total r skills 0

/-- The skill-computation loop of `cookoff` (kitchen_model.py lines 63-68):
pairs every chef, in roster order, with its skill for the cuisine.  `none` is
the AssertionError from `calculate_chef_skill` on a cuisine outside the
enumeration.  (Line 59 initializes `skills_dict` as `[]` although it is used as
a dict; for distinct roster ids the insertion-ordered association built here is
exactly the iteration order of that dict.) -/
def compute_skills (cuisine : String) : List Chef → Option (List (Chef × Int))
  | [] => some []
  | c :: rest =>
    match calculate_chef_skill c cuisine, compute_skills cuisine rest with
    | some s, some tail => some ((c, s) :: tail)
    | _, _ => none

/-- Embeds `clear_kitchen` (kitchen_model.py lines 86-94). -/
def clear_kitchen (m : KitchenModel) : KitchenModel :=
  if m.kitchen.isEmpty then m else { m with kitchen := [] }

/-- Embeds `clear_cache` (kitchen_model.py lines 173-178). -/
def clear_cache (m : KitchenModel) : KitchenModel :=
  { m with chefs_cache := [], ttl := [] }

/-- Embeds `enter_kitchen` (kitchen_model.py lines 96-117), faithfully to the
source: the capacity check on line 107 is `len(self.kitchen) > 20` (it does not
fire at exactly 20 entries), and the function body ends after the log statement
on line 117 — `chef_id` is never appended to `self.kitchen`, so the successful
return leaves the state untouched. -/
def enter_kitchen (m : KitchenModel) (store : List Chef) (chef_id : Int) :
    Except (String × KitchenModel) KitchenModel :=
  if m.kitchen.length > 20 then
    .error ("Kitchen is full", m)
  else
    match get_chef_by_id store chef_id with
    | none => .error ("Chef with ID " ++ toString chef_id ++ " not found.", m)
    | some _ => .ok m

/-- Embeds `cookoff` (kitchen_model.py lines 43-84).  `now` is `time.time()`
inside the `get_chefs` call, `r` the draw `get_random()` returns (per the
specification a uniform value in the interval from 0 inclusive to 1 exclusive;
`api_utils.get_random` itself is outside the modelled core).  Source slips kept
faithfully:
* line 60 reads `chefs = self.get_chefs` without call parentheses; the loop on
  line 64 requires the returned list, so the embedding performs the call;
* a zero `total_skill` raises ZeroDivisionError on line 75;
* if the walk never satisfies `r < progress` the loop falls through and line 80
  raises NameError, since `winner` was never assigned — there is no explicit
  fallback to the last participant;
* line 82 reads `self.clear_kitchen` without call parentheses: the attribute
  access is evaluated and discarded, so the roster is NOT cleared on success. -/
def cookoff (m : KitchenModel) (store : List Chef) (now : ℚ) (r : ℚ)
    (cuisine : String) :
    Except (String × KitchenModel) (Chef × KitchenModel × List Chef) :=
  if m.kitchen.length < 2 then
    .error ("There must be at least two chefs to start a cookoff.", m)
  else
    match get_chefs m store now with
    | .error e => .error e
    | .ok (chefs, m1) =>
      match compute_skills cuisine chefs with
      | none => .error ("AssertionError", m1)
      | some skills =>
        if (skills.map Prod.snd).sum = 0 then
          .error ("ZeroDivisionError", m1)
        else
          match select_winner skills ((skills.map Prod.snd).sum) r with
          | none => .error ("NameError: winner is not defined", m1)
          | some winner =>
            match update_chef_stats store winner.id ("win") with
            | .error e => .error (e, m1)
            | .ok store2 => .ok (winner, m1, store2)

/-! Specification-side definitions, written from the words of the spec, to be
compared with the source-derived definitions above. -/

/-- Specification-side score formula, transcribed from specification section 4.1. -/
def spec_score (chef : Chef) (cuisine : String) : Int :=
  let specialtyBonus : Int := if cuisine = chef.specialty then 5 else 0
  let ageModifier : Int :=
    if (chef.age < 25 ∧ chef.years_experience < 4) ∨ chef.age > 55 then -5 else 0
  chef.years_experience * 4 + chef.signature_dishes * 2 + specialtyBonus + ageModifier

/-- Cumulative skill share of the first `i + 1` participants, as the
specification words it: the value of `progress` after participant `i`. -/
def cum_share (skills : List (Chef × Int)) (total : Int) (i : Nat) : ℚ :=
  (((skills.take (i + 1)).map Prod.snd).sum : ℚ) / (total : ℚ)

/-- Specification-side winner selection, transcribed from specification section
4.3 step 5: the first participant, in roster order, whose cumulative skill share
exceeds the draw. -/
def spec_winner (skills : List (Chef × Int)) (total : Int) (r : ℚ) : Option Chef :=
  ((List.range skills.length).find?
      (fun i => decide (r < cum_share skills total i))).bind
    (fun i => (skills.get? i).map Prod.fst)

/-! Concrete fixtures, taken from the fixtures of
`chefs_kitchen/tests/test_kitchen_model.py` (ids assigned in creation order). -/

/-- Test fixture sample_chef1. -/
def gordon : Chef :=
  { id := 1, name := "Gordon Ramsay", specialty := "Italian",
    years_experience := 25, signature_dishes := 20, age := 58,
    wins := 0, cookoffs := 0 }

/-- Test fixture sample_chef2. -/
def alvin : Chef :=
  { id := 2, name := "Alvin Leung", specialty := "Chinese",
    years_experience := 30, signature_dishes := 10, age := 64,
    wins := 0, cookoffs := 0 }

/-- Test fixture sample_chef3. -/
def aaron : Chef :=
  { id := 3, name := "Aaron Sanchez", specialty := "Mexican",
    years_experience := 20, signature_dishes := 4, age := 49,
    wins := 0, cookoffs := 0 }

/-- A chef store holding the three fixture chefs. -/
def sample_store : List Chef := [gordon, alvin, aaron]

/-- A kitchen with the three fixture chefs entered, empty caches, default TTL. -/
def sample_kitchen : KitchenModel :=
  { kitchen := [1, 2, 3], chefs_cache := [], ttl := [], ttl_seconds := 60 }

/-- A kitchen whose roster already holds exactly 20 entries. -/
def twenty_kitchen : KitchenModel :=
  { kitchen := [1, 2, 3, 4, 5, 6, 7, 8, 9, 10, 11, 12, 13, 14, 15, 16, 17, 18, 19, 20],
    chefs_cache := [], ttl := [], ttl_seconds := 60 }

/-- A kitchen whose roster already holds 21 entries. -/
def twentyone_kitchen : KitchenModel :=
  { kitchen := [1, 2, 3, 4, 5, 6, 7, 8, 9, 10, 11, 12, 13, 14, 15, 16, 17, 18, 19, 20, 21],
    chefs_cache := [], ttl := [], ttl_seconds := 60 }

/-- An empty kitchen with default TTL. -/
def empty_kitchen : KitchenModel :=
  { kitchen := [], chefs_cache := [], ttl := [], ttl_seconds := 60 }

/-- A kitchen whose cache holds a still-fresh snapshot of chef 1: the roster is
`[1]`, the cached entry expires at time 1000. -/
def fresh_cache_kitchen : KitchenModel :=
  { kitchen := [1], chefs_cache := [(1, gordon)], ttl := [(1, 1000)], ttl_seconds := 60 }

/-- A chef whose skill score is negative: younger than 25 with fewer than 4
years of experience, and no specialty bonus for Italian. -/
def young_novice : Chef :=
  { id := 4, name := "Young Novice", specialty := "Greek",
    years_experience := 0, signature_dishes := 0, age := 20,
    wins := 0, cookoffs := 0 }

/-- Participants carrying exactly the skill values [120, 115, 88] that the
specification example states (total 323). -/
def claimed_skills : List (Chef × Int) := [(gordon, 120), (alvin, 115), (aaron, 88)]

/-- The model state after the sample cookoff run (roster untouched, caches
populated at `now = 0` with expiry 60). -/
def sample_kitchen_after : KitchenModel :=
  { kitchen := [1, 2, 3],
    chefs_cache := [(1, gordon), (2, alvin), (3, aaron)],
    ttl := [(1, 60), (2, 60), (3, 60)],
    ttl_seconds := 60 }

/-- The store after the sample cookoff run: the winner alvin with one win and
one cookoff recorded. -/
def sample_store_after : List Chef :=
  [gordon,
   { id := 2, name := "Alvin Leung", specialty := "Chinese",
     years_experience := 30, signature_dishes := 10, age := 64,
     wins := 1, cookoffs := 1 },
   aaron]

/-- Winner projection of a cookoff run. -/
def cookoff_result_winner (m : KitchenModel) (store : List Chef) (now r : ℚ)
    (cuisine : String) : Option Chef :=
  match cookoff m store now r cuisine with
  | .ok (w, _, _) => some w
  | .error _ => none

/-- Roster-after projection of a successful cookoff run. -/
def cookoff_kitchen_after (m : KitchenModel) (store : List Chef) (now r : ℚ)
    (cuisine : String) : Option (List Int) :=
  match cookoff m store now r cuisine with
  | .ok (_, m2, _) => some m2.kitchen
  | .error _ => none

/-- Decidable equality of run results. -/
instance {ε α : Type} [DecidableEq ε] [DecidableEq α] : DecidableEq (Except ε α) :=
  fun a b =>
    match a, b with
    | .error e1, .error e2 =>
      if h : e1 = e2 then .isTrue (congrArg Except.error h)
      else .isFalse (fun hh => h (Except.error.inj hh))
    | .error _, .ok _ => .isFalse (fun hh => Except.noConfusion hh)
    | .ok _, .error _ => .isFalse (fun hh => Except.noConfusion hh)
    | .ok a1, .ok a2 =>
      if h : a1 = a2 then .isTrue (congrArg Except.ok h)
      else .isFalse (fun hh => h (Except.ok.inj hh))

/-! Helper lemmas about the cumulative walk.  The rational operations of
Batteries are sealed by default; they are unsealed here so that concrete runs
of the embedded operations reduce. -/

unseal Rat.add Rat.mul Rat.inv

/-- Unfolding equation for the walk on a cons cell. -/
theorem select_winner_go_cons (total : Int) (r : ℚ) (c : Chef) (s : Int)
    (rest : List (Chef × Int)) (p : ℚ) :
    select_winner_go total r ((c, s) :: rest) p =
      if r < p + (s : ℚ) / (total : ℚ) then some c
      else select_winner_go total r rest (p + (s : ℚ) / (total : ℚ)) := rfl

/-- Cumulative share of the head participant alone. -/
theorem cum_share_zero (c : Chef) (s : Int) (rest : List (Chef × Int)) (total : Int) :
    cum_share ((c, s) :: rest) total 0 = (s : ℚ) / (total : ℚ) := by
  unfold cum_share
  rw [List.take_succ_cons, List.take_zero, List.map_cons, List.map_nil,
      List.sum_cons, List.sum_nil, add_zero]

/-- Shifting the cumulative share across the head participant. -/
theorem cum_share_cons (c : Chef) (s : Int) (rest : List (Chef × Int)) (total : Int)
    (i : Nat) :
    cum_share ((c, s) :: rest) total (i + 1) =
      (s : ℚ) / (total : ℚ) + cum_share rest total i := by
  unfold cum_share
  rw [List.take_succ_cons, List.map_cons, List.sum_cons]
  push_cast
  rw [add_div]

/-- The walk, started from an arbitrary accumulated progress `p`, picks the
first index whose shifted cumulative share exceeds the draw. -/
theorem select_winner_go_eq_find (total : Int) (r : ℚ) :
    ∀ (skills : List (Chef × Int)) (p : ℚ),
      select_winner_go total r skills p =
        ((List.range skills.length).find?
            (fun i => decide (r < p + cum_share skills total i))).bind
          (fun i => (skills.get? i).map Prod.fst)
  | [], p => by
    simp [select_winner_go]
  | (c, s) :: rest, p => by
    rw [select_winner_go_cons, List.length_cons, List.range_succ_eq_map]
    by_cases h : r < p + (s : ℚ) / (total : ℚ)
    · rw [if_pos h]
      have hfind : List.find? (fun i => decide (r < p + cum_share ((c, s) :: rest) total i))
          (0 :: List.map Nat.succ (List.range rest.length)) = some 0 :=
        List.find?_cons_of_pos _ (by
          show decide (r < p + cum_share ((c, s) :: rest) total 0) = true
          rw [cum_share_zero]
          exact decide_eq_true h)
      rw [hfind]
      simp
    · rw [if_neg h]
      have hfind : List.find? (fun i => decide (r < p + cum_share ((c, s) :: rest) total i))
          (0 :: List.map Nat.succ (List.range rest.length)) =
          List.find? (fun i => decide (r < p + cum_share ((c, s) :: rest) total i))
            (List.map Nat.succ (List.range rest.length)) :=
        List.find?_cons_of_neg _ (by
          intro hh
          exact h ((cum_share_zero c s rest total) ▸ of_decide_eq_true hh))
      rw [hfind]
      rw [select_winner_go_eq_find total r rest (p + (s : ℚ) / (total : ℚ))]
      rw [List.find?_map, Option.bind_map]
      have hpred : ((fun i => decide (r < p + cum_share ((c, s) :: rest) total i)) ∘ Nat.succ) =
          (fun i => decide (r < p + (s : ℚ) / (total : ℚ) + cum_share rest total i)) := by
        funext i
        simp only [Function.comp_apply]
        congr 1
        rw [cum_share_cons, ← add_assoc]
      have hfun : ((fun i => (((c, s) :: rest).get? i).map Prod.fst) ∘ Nat.succ) =
          (fun i => (rest.get? i).map Prod.fst) := by
        funext i
        rfl
      rw [hpred, hfun]

/-- A successful win update rewrites the store pointwise: the rows with the
winning id get one more win and one more cookoff, all other rows unchanged. -/
theorem update_chef_stats_win_shape (store : List Chef) (chef_id : Int) (s2 : List Chef)
    (h : update_chef_stats store chef_id ("win") = .ok s2) :
    s2 = store.map (fun c =>
      if c.id = chef_id then { c with cookoffs := c.cookoffs + 1, wins := c.wins + 1 }
      else c) := by
  unfold update_chef_stats at h
  rw [if_neg (by simp)] at h
  by_cases hf : (get_chef_by_id store chef_id).isNone
  · rw [if_pos hf] at h
    exact Except.noConfusion h
  · rw [if_neg hf] at h
    have h2 : store.map (fun c : Chef =>
        if c.id = chef_id then
          if ("win" : String) = ("win") then
            { c with cookoffs := c.cookoffs + 1, wins := c.wins + 1 }
          else { c with cookoffs := c.cookoffs + 1 }
        else c) = s2 := Except.ok.inj h
    rw [← h2]
    have hfg : (fun c : Chef =>
        if c.id = chef_id then
          if ("win" : String) = ("win") then
            { c with cookoffs := c.cookoffs + 1, wins := c.wins + 1 }
          else { c with cookoffs := c.cookoffs + 1 }
        else c) = (fun c : Chef =>
        if c.id = chef_id then { c with cookoffs := c.cookoffs + 1, wins := c.wins + 1 }
        else c) := by
      funext c
      by_cases hc : c.id = chef_id <;> simp [hc]
    rw [hfg]

/-! Claim theorems. -/

/-- C1: in `cookoff`, the winner is selected by walking the participants in
roster order, accumulating `progress` by `skill / totalSkill` per participant,
and choosing the first participant for whom `r < progress` — equivalently, the
source walk equals the specification-side first-index-over-threshold selection
— and for participants with the skills [120, 115, 88] stated in the example
(total 323) and a draw fixed at 0.42, the second participant in roster order
(alvin) wins; the full cookoff run on the three fixture chefs with draw 0.42
likewise crowns the second chef. -/
theorem cookoff_winner_cumulative_walk :
    (∀ (skills : List (Chef × Int)) (total : Int) (r : ℚ),
        select_winner skills total r = spec_winner skills total r) ∧
    select_winner claimed_skills 323 (42 / 100) = some alvin ∧
    cookoff_result_winner sample_kitchen sample_store 0 (42 / 100) ("Italian") =
      some alvin := by
  refine ⟨?_, by decide, by decide⟩
  intro skills total r
  unfold select_winner spec_winner
  rw [select_winner_go_eq_find]
  have hp : (fun i => decide (r < 0 + cum_share skills total i)) =
      (fun i => decide (r < cum_share skills total i)) := by
    funext i
    rw [zero_add]
  rw [hp]

/-- C2 counterexample: the claim asserts score({years=25, dishes=20,
specialty=Italian, age=58}, Italian) = 120, but the formula the claim itself
states — and the code computes — gives 25*4 + 20*2 + 5 - 5 = 140. -/
theorem calculate_chef_skill_gordon_not_120 :
    calculate_chef_skill gordon ("Italian") = some 140 ∧
    calculate_chef_skill gordon ("Italian") ≠ some 120 := by
  exact ⟨by decide, by decide⟩

/-- C2 (amended): for every chef and every cuisine in the fixed enumeration,
the skill score equals the stated formula; in particular
score({years=25, dishes=20, specialty=Italian, age=58}, Italian) = 140 and
score({years=30, dishes=10, specialty=Chinese, age=64}, Italian) = 135, and a
negative score is a valid output, not an error. -/
theorem calculate_chef_skill_matches_formula :
    (∀ (chef : Chef) (cuisine : String), cuisine ∈ cuisines →
        calculate_chef_skill chef cuisine = some (spec_score chef cuisine)) ∧
    calculate_chef_skill gordon ("Italian") = some 140 ∧
    calculate_chef_skill alvin ("Italian") = some 135 ∧
    calculate_chef_skill young_novice ("Italian") = some (-5) := by
  refine ⟨?_, by decide, by decide, by decide⟩
  intro chef cuisine hc
  unfold calculate_chef_skill spec_score
  rw [if_pos hc]

/-- C2 witness: the amended formula theorem applied at the concrete fixture
chef and the cuisine Italian. -/
theorem calculate_chef_skill_matches_formula_witness :
    (("Italian") ∈ cuisines) ∧
    calculate_chef_skill gordon ("Italian") = some (spec_score gordon ("Italian")) :=
  ⟨by decide, calculate_chef_skill_matches_formula.1 gordon ("Italian") (by decide)⟩

/-- C3: the cumulative walk of `cookoff` has NO fallback arm for the final
participant: when no participant satisfies `r < progress` — here the draw
equals the exact final progress, standing in for the source-level case where
the rounded float sum of the shares tops out at the drawn value — the
selection is `none` rather than the last participant, and `cookoff` turns the
fall-through into the NameError of line 80 instead of crowning a winner. -/
theorem cookoff_no_fallback_winner :
    select_winner claimed_skills 323 1 = none ∧
    claimed_skills.getLast? = some (aaron, 88) ∧
    cookoff sample_kitchen sample_store 0 1 ("Italian") =
      .error ("NameError: winner is not defined", sample_kitchen_after) := by
  exact ⟨by decide, by decide, by decide⟩

/-- C4: with the roster at exactly 20 entries, `enter_kitchen` does NOT fail
with the capacity error — the source check `len(self.kitchen) > 20` lets it
through to the store lookup, which here fails NotFound for the absent id 21
(the repo test expects the message "Kitchen is full" in this very scenario);
the capacity error fires only from 21 entries on. -/
theorem enter_kitchen_no_capacity_error_at_twenty :
    twenty_kitchen.kitchen.length = 20 ∧
    enter_kitchen twenty_kitchen sample_store 21 =
      .error ("Chef with ID 21 not found.", twenty_kitchen) ∧
    enter_kitchen twentyone_kitchen sample_store 21 =
      .error ("Kitchen is full", twentyone_kitchen) := by
  exact ⟨by decide, by decide, by decide⟩

/-- C5: `enter_kitchen` on a non-full roster with an id present in the store
returns successfully WITHOUT appending the id — the roster stays empty, though
the claim (and the repo docstring and test) say it becomes [1].  The NotFound
arm for an absent id is as claimed. -/
theorem enter_kitchen_never_appends :
    enter_kitchen empty_kitchen sample_store 1 = .ok empty_kitchen ∧
    empty_kitchen.kitchen = ([] : List Int) ∧
    enter_kitchen empty_kitchen sample_store 99 =
      .error ("Chef with ID 99 not found.", empty_kitchen) := by
  exact ⟨by decide, by decide, by decide⟩

/-- C6: `cookoff` on a roster with fewer than two entries fails with the
insufficient-participants error, and the state carried out of the failure is
the unchanged model. -/
theorem cookoff_insufficient_participants (m : KitchenModel) (store : List Chef)
    (now r : ℚ) (cuisine : String) (h : m.kitchen.length < 2) :
    cookoff m store now r cuisine =
      .error ("There must be at least two chefs to start a cookoff.", m) := by
  unfold cookoff
  rw [if_pos h]

/-- C6 witness: the insufficient-participants failure on the empty kitchen. -/
theorem cookoff_insufficient_participants_witness :
    empty_kitchen.kitchen.length < 2 ∧
    cookoff empty_kitchen sample_store 0 0 ("Italian") =
      .error ("There must be at least two chefs to start a cookoff.", empty_kitchen) :=
  ⟨by decide,
    cookoff_insufficient_participants empty_kitchen sample_store 0 0 ("Italian") (by decide)⟩

/-- C7: a successful cookoff does NOT leave the roster empty: on the
three-chef fixture run the roster is still [1, 2, 3] afterwards, because line
82 of the source reads `self.clear_kitchen` without call parentheses, so the
clearing never executes (the repo test asserts length 0 here). -/
theorem cookoff_does_not_clear_roster :
    cookoff_kitchen_after sample_kitchen sample_store 0 (42 / 100) ("Italian") =
      some [1, 2, 3] ∧
    ([1, 2, 3] : List Int) ≠ [] := by
  exact ⟨by decide, by decide⟩

/-- C8: every successful cookoff changes the store in exactly one way — the
winning id gets wins + 1 and cookoffs + 1 — and leaves every other row
untouched. -/
theorem cookoff_records_single_win (m : KitchenModel) (store : List Chef)
    (now r : ℚ) (cuisine : String) (w : Chef) (m2 : KitchenModel)
    (store2 : List Chef)
    (h : cookoff m store now r cuisine = .ok (w, m2, store2)) :
    store2 = store.map (fun c =>
      if c.id = w.id then { c with cookoffs := c.cookoffs + 1, wins := c.wins + 1 }
      else c) := by
  unfold cookoff at h
  split at h
  · exact Except.noConfusion h
  · split at h
    · exact Except.noConfusion h
    · split at h
      · exact Except.noConfusion h
      · split at h
        · exact Except.noConfusion h
        · split at h
          · exact Except.noConfusion h
          · split at h
            · exact Except.noConfusion h
            · rename_i s2 hupd
              have hinj := Except.ok.inj h
              rw [Prod.mk.injEq, Prod.mk.injEq] at hinj
              obtain ⟨hw2, hm2, hs2⟩ := hinj
              subst hs2
              subst hw2
              exact update_chef_stats_win_shape store _ _ hupd

/-- C8 witness: on the fixture run the winner is alvin and the resulting store
is exactly the pointwise-bumped one. -/
theorem cookoff_records_single_win_witness :
    cookoff sample_kitchen sample_store 0 (42 / 100) ("Italian") =
      .ok (alvin, sample_kitchen_after, sample_store_after) ∧
    sample_store_after = sample_store.map (fun c =>
      if c.id = alvin.id then { c with cookoffs := c.cookoffs + 1, wins := c.wins + 1 }
      else c) :=
  ⟨by decide,
    cookoff_records_single_win sample_kitchen sample_store 0 (42 / 100) ("Italian")
      alvin sample_kitchen_after sample_store_after (by decide)⟩

/-- C9: resolving the roster does NOT honour a fresh cache entry: with chef 1
cached until time 1000 and the clock at 5, `get_chefs` still consults the
durable store (the source looks the TTL up under the wrong key, so every entry
counts as stale) — here the store is empty, so the resolve fails NotFound
instead of returning the cached snapshot.  Moreover the TTL option read at
construction is the variable named TTL, not TTL_SECONDS. -/
theorem get_chefs_refetches_despite_fresh_cache :
    (5 : ℚ) < 1000 ∧
    get_chefs fresh_cache_kitchen [] 5 =
      .error ("Chef with ID 1 not found.", fresh_cache_kitchen) ∧
    initTtlSeconds [(("TTL_SECONDS"), 120)] = 60 ∧
    initTtlSeconds [(("TTL"), 120)] = 120 := by
  exact ⟨by decide, by decide, by decide, by decide⟩

/-- C10: whenever the capacity check fires, `enter_kitchen` fails with the
capacity error and the result does not depend on the chef store at all — the
store is never consulted. -/
theorem enter_kitchen_capacity_before_store (m : KitchenModel)
    (store store2 : List Chef) (chef_id : Int) (h : m.kitchen.length > 20) :
    enter_kitchen m store chef_id = .error ("Kitchen is full", m) ∧
    enter_kitchen m store chef_id = enter_kitchen m store2 chef_id := by
  unfold enter_kitchen
  rw [if_pos h, if_pos h]
  exact ⟨rfl, rfl⟩

/-- C10 witness: with 21 entries, the capacity error is returned identically
for an empty store and for the populated fixture store, for an id absent from
both. -/
theorem enter_kitchen_capacity_before_store_witness :
    twentyone_kitchen.kitchen.length > 20 ∧
    (enter_kitchen twentyone_kitchen [] 999 =
        .error ("Kitchen is full", twentyone_kitchen) ∧
      enter_kitchen twentyone_kitchen [] 999 =
        enter_kitchen twentyone_kitchen sample_store 999) :=
  ⟨by decide,
    enter_kitchen_capacity_before_store twentyone_kitchen [] sample_store 999 (by decide)⟩

end ChefsKitchen
